import Mathlib

/-!
Shallow embedding of the cnn_processor_model repository (sig2sock.cc,
pe.cc, dmaTester.cc) and verification of its specification claims.

Machine integers are modelled as Nat (with explicit modular reduction
where the source relies on fixed-width wraparound); fallible code
returns Option or Except.  Each definition is translated from the
corresponding C++ source function; line references are given in the
doc comments.
-/

namespace Sig2Sock

/-- Translation of the helper bitsToBytes (sig2sock.cc lines 14-17):
bytes = bits / 8, rounded up when bits is not a multiple of 8. -/
def bitsToBytes (bits : Nat) : Nat :=
  if bits % 8 = 0 then bits / 8 else bits / 8 + 1

/-- State of one Sig2Sock instance (members of the template class as used
by sig2sock.cc): the FIFO buffer (head = front of the std::queue), the
currentWords counter, the setupTime counter (initialised to 1 in the
constructor), and the inputReady output.  The field emitted records, for
observation, the byte payload of every packet written to the transport
socket by flushBuffer, in emission order. -/
structure State where
  buffer : List Nat
  currentWords : Nat
  setupTime : Nat
  inputReady : Bool
  emitted : List (List Nat)
deriving DecidableEq

/-- Initial state after construction (sig2sock.cc lines 20-30):
currentWords = 0, setupTime = 1, empty buffer.  The source does not
initialise the inputReady signal in the constructor; its pre-first-update
value is irrelevant to the theorems below and is taken as false. -/
def initState : State :=
  { buffer := [], currentWords := 0, setupTime := 1, inputReady := false, emitted := [] }

/-- Serialisation of one buffered word into its constituent bytes
(sig2sock.cc lines 74-79): reinterpret_cast over the word reads
bitsToBytes(BUSWIDTH) bytes, least significant byte first
(little-endian host). -/
def serializeWord (bpw : Nat) (v : Nat) : List Nat :=
  (List.range bpw).map fun i => v / 2 ^ (8 * i) % 256

/-- The pop loop of flushBuffer (sig2sock.cc lines 73-81): pops n words
from the front of the queue, serialising each; returns the concatenated
bytes and the remaining buffer.  Popping from an empty queue is undefined
behaviour in the source (std::queue front/pop on empty), modelled as
none. -/
def flushPop (bpw : Nat) : Nat → List Nat → Option (List Nat × List Nat)
  | 0, buf => some ([], buf)
  | _ + 1, [] => none
  | n + 1, w :: rest =>
    match flushPop bpw n rest with
    | none => none
    | some (bs, buf) => some (serializeWord bpw w ++ bs, buf)

/-- Translation of Sig2Sock::flushBuffer (sig2sock.cc lines 66-92).
When the packet length register is nonzero and the buffered word count
times bytes-per-word reaches it, the loop pops requiredLength words,
serialises them, and writes one packet to the transport.  Note that the
guard counts bytes while the loop pops words.  flushBuffer does not
modify currentWords.  The transport is assumed to answer ok (a non-ok
response would raise a fatal TransportFault, which none of the claims
below exercises). -/
def flushBuffer (buswidth pktLen : Nat) (s : State) : Option State :=
  if pktLen ≠ 0 ∧ pktLen ≤ s.buffer.length * bitsToBytes buswidth then
    match flushPop (bitsToBytes buswidth) pktLen s.buffer with
    | none => none
    | some (bytes, buf) => some { s with buffer := buf, emitted := s.emitted ++ [bytes] }
  else some s

/-- Translation of Sig2Sock::updateInput (sig2sock.cc lines 50-64), run on
every clock posedge.  If valid is asserted and currentWords < maxWords:
a pending setupTime tick is consumed with an early return (no flush, no
ready update); otherwise the input value is pushed and currentWords is
incremented.  Then flushBuffer runs and inputReady is recomputed as
currentWords < maxWords. -/
def updateInput (buswidth maxWords pktLen : Nat) (valid : Bool) (v : Nat) (s : State) :
    Option State :=
  if valid ∧ s.currentWords < maxWords then
    if s.setupTime ≠ 0 then
      some { s with setupTime := s.setupTime - 1 }
    else
      let s1 : State :=
        { s with buffer := s.buffer ++ [v], currentWords := s.currentWords + 1 }
      (flushBuffer buswidth pktLen s1).map fun s2 =>
        { s2 with inputReady := decide (s2.currentWords < maxWords) }
  else
    (flushBuffer buswidth pktLen s).map fun s2 =>
      { s2 with inputReady := decide (s2.currentWords < maxWords) }

/-- One simulated clock tick: the SC_METHOD resetSetupTime (sig2sock.cc
lines 94-97) fires on the falling edge of peripheralValid, resetting
setupTime to 1, before the posedge handler updateInput samples. -/
def tick (buswidth maxWords pktLen : Nat) (prevValid valid : Bool) (v : Nat) (s : State) :
    Option State :=
  let s0 := if prevValid ∧ ¬ valid then { s with setupTime := 1 } else s
  updateInput buswidth maxWords pktLen valid v s0

/-- Runs a sequence of ticks, each given as a (valid, input value) pair,
threading the previous valid level for falling-edge detection. -/
def runAux (buswidth maxWords pktLen : Nat) : Bool → List (Bool × Nat) → State → Option State
  | _, [], s => some s
  | prev, (vd, v) :: rest, s =>
    match tick buswidth maxWords pktLen prev vd v s with
    | none => none
    | some s1 => runAux buswidth maxWords pktLen vd rest s1

/-- Runs the packetizer from its freshly constructed state over a list of
per-tick inputs. -/
def run (buswidth maxWords pktLen : Nat) (inputs : List (Bool × Nat)) : Option State :=
  runAux buswidth maxWords pktLen false inputs initState

end Sig2Sock

namespace PE

/-- Descriptor state tag (pe.cc dispatches on GENWAIT, WAIT and SUSPENDED;
the declaring header is not in src/, so any further enum value is
represented by the single constructor OTHER, which pe.cc lines 96-99
reject as an invalid descriptor). -/
inductive DescriptorState
  | GENWAIT
  | WAIT
  | SUSPENDED
  | OTHER
deriving DecidableEq

/-- One descriptor of a PE program, with the fields pe.cc reads and
writes (state, x_count, x_counter, y_count, y_counter, y_modify).  The
counters are signed in the source (they are compared against 0 after
decrementing), hence Int. -/
structure Descriptor_2D where
  state : DescriptorState
  x_count : Int
  x_counter : Int
  y_count : Int
  y_counter : Int
  y_modify : Int
deriving DecidableEq

/-- State of one PE as used by pe.cc: the loaded program and cursor, the
weight set and weight index, and the programmed flag. -/
structure PEState where
  program : List Descriptor_2D
  prog_idx : Nat
  weights : List Int
  weight_idx : Int
  programmed : Bool
deriving DecidableEq

/-- Faults raised by the PE model: updating an unprogrammed PE
(pe.cc lines 101-104), a descriptor with an unrecognised state tag
(pe.cc lines 96-99), and the std::out_of_range raised by
program.at(prog_idx) when the cursor is past the end of the program
(pe.cc line 63). -/
inductive PEError
  | notProgrammed
  | invalidDescriptor
  | indexOutOfRange
deriving DecidableEq

/-- State after construction / reset (pe.cc lines 3-19): weight index 0,
no weights, not programmed, and no program. -/
def initPE : PEState :=
  { program := [], prog_idx := 0, weights := [], weight_idx := 0, programmed := false }

/-- Translation of PE::loadProgram (pe.cc lines 46-56): replaces the
program, resets the cursor to 0 and sets programmed; the weight index is
not touched. -/
def loadProgram (descs : List Descriptor_2D) (s : PEState) : PEState :=
  { s with program := descs, prog_idx := 0, programmed := true }

/-- Translation of PE::loadWeights (pe.cc lines 40-44): replaces the
weight set only. -/
def loadWeights (ws : List Int) (s : PEState) : PEState :=
  { s with weights := ws }

/-- Translation of PE::updateState (pe.cc lines 58-105).  Requires the
programmed flag, fetches the current descriptor with the bounds-checked
program.at(prog_idx) (out of range raises std::out_of_range, modelled as
the indexOutOfRange error), and dispatches on its state tag.  GENWAIT:
decrement x_counter; if it is then below 0, reset it to x_count,
decrement y_counter and shift the weight index by y_modify; afterwards,
if y_counter is below 0, advance the cursor.  WAIT: the same counter
bookkeeping without the weight shift.  SUSPENDED: no-op.  The descriptor
is mutated in place in the program vector, modelled with List.set. -/
def updateState (s : PEState) : Except PEError PEState :=
  if s.programmed then
    match s.program.get? s.prog_idx with
    | none => .error .indexOutOfRange
    | some d =>
      match d.state with
      | .GENWAIT =>
        let x1 := d.x_counter - 1
        let d1 :=
          if x1 < 0 then
            { d with x_counter := d.x_count, y_counter := d.y_counter - 1 }
          else
            { d with x_counter := x1 }
        let w1 := if x1 < 0 then s.weight_idx + d.y_modify else s.weight_idx
        let i1 := if d1.y_counter < 0 then s.prog_idx + 1 else s.prog_idx
        .ok { s with program := s.program.set s.prog_idx d1, weight_idx := w1, prog_idx := i1 }
      | .WAIT =>
        let x1 := d.x_counter - 1
        let d1 :=
          if x1 < 0 then
            { d with x_counter := d.x_count, y_counter := d.y_counter - 1 }
          else
            { d with x_counter := x1 }
        let i1 := if d1.y_counter < 0 then s.prog_idx + 1 else s.prog_idx
        .ok { s with program := s.program.set s.prog_idx d1, prog_idx := i1 }
      | .SUSPENDED => .ok s
      | .OTHER => .error .invalidDescriptor
  else
    .error .notProgrammed

/-- Iterates updateState n times, stopping at the first fault. -/
def advanceN : Nat → PEState → Except PEError PEState
  | 0, s => .ok s
  | n + 1, s =>
    match updateState s with
    | .error e => .error e
    | .ok s1 => advanceN n s1

/-- The one-descriptor program of the specification test:
{GEN_WAIT, x_count = 2, y_count = 1, y_modify = 1} with both counters
starting at their counts. -/
def testDescriptor : Descriptor_2D :=
  { state := .GENWAIT, x_count := 2, x_counter := 2, y_count := 1, y_counter := 1, y_modify := 1 }

/-- The PE right after loading the single-descriptor test program onto a
freshly constructed PE (weight index 0). -/
def testPE : PEState := loadProgram [testDescriptor] initPE

end PE

namespace DMATester

/-- Modelled from the spec: the register-map header dmaTestRegisterMap.hh
is not in src/; section 6 of the specification gives, per DMA engine and
direction, the registers ADDR_REG (address low half), ADDR_MSB_REG
(address high half), LENGTH_REG (byte length, write starts the transfer),
CR_REG (control) and SR_REG (status), plus a fixed memory base region.
The addresses are kept symbolic; the Boolean argument selects the S2MM
engine (true) or the MM2S engine (false), at instance index 0. -/
inductive RegAddr
  | addrReg (s2mm : Bool)
  | addrMsbReg (s2mm : Bool)
  | lengthReg (s2mm : Bool)
  | crReg (s2mm : Bool)
  | srReg (s2mm : Bool)
  | memory (byteOffset : Nat)
deriving DecidableEq

/-- One bus transaction issued by the tester: target register or memory
address, direction, and payload value. -/
structure RegTxn where
  addr : RegAddr
  isWrite : Bool
  payload : Nat
deriving DecidableEq

/-- Faults of the DMA tester model: a transaction whose response status
was checked and found non-ok (the std::runtime_error throws at
dmaTester.cc lines 48 and 157-158), and the std::out_of_range of a
checked vector access. -/
inductive DMAFault
  | transportFault
  | outOfRange
deriving DecidableEq

/-- The test vector built by DMATester::loadData (dmaTester.cc lines
36-38): ten ascending values 0..9 pushed in order.  The source stores
them as floats; the values are small integers, modelled as Nat. -/
def testData : List Nat := List.range 10

/-- Translation of DMATester::loadData (dmaTester.cc lines 35-50): builds
testData, writes it in one transaction to the memory base, and throws
(TransportFault) when the response is not ok; on success the dataLoaded
event is notified.  The response status of the write is the argument. -/
def loadData (respOk : Bool) : Except DMAFault (List Nat) :=
  if respOk then .ok testData else .error .transportFault

/-- Translation of DMATester::sendDMAReq (dmaTester.cc lines 60-93),
with the memory base address, testData length and the two offsets passed
explicitly.  Computes the 64-bit data address, splits it into 32-bit
halves, computes the transfer byte size (one word, or the whole vector in
burst mode), issues the three register writes (address low, address high,
length), and advances the offset of the requested direction by the word
count.  The three transport response statuses r1, r2, r3 are returned by
the bus but never inspected by the source, so the function always
succeeds; it returns the new (mm2sOffset, s2mmOffset) pair and the
transaction list. -/
def sendDMAReq (burst s2mm : Bool) (memBase tdLen mm2sOffset s2mmOffset : Nat)
    (r1 r2 r3 : Bool) : Except DMAFault (Nat × Nat × List RegTxn) :=
  let dataAddress :=
    (memBase + (if s2mm then tdLen + s2mmOffset else mm2sOffset) * 4) % 2 ^ 64
  let addrLsb := dataAddress % 2 ^ 32
  let addrMsb := dataAddress / 2 ^ 32
  let dataSize := if burst then 4 * tdLen else 4
  let txns : List RegTxn :=
    [ { addr := .addrReg s2mm, isWrite := true, payload := addrLsb },
      { addr := .addrMsbReg s2mm, isWrite := true, payload := addrMsb },
      { addr := .lengthReg s2mm, isWrite := true, payload := dataSize } ]
  let _ := (r1, r2, r3)
  if s2mm then
    .ok (mm2sOffset, s2mmOffset + dataSize / 4, txns)
  else
    .ok (mm2sOffset + dataSize / 4, s2mmOffset, txns)

/-- Translation of DMATester::enableIOC (dmaTester.cc lines 174-191):
reads the control register (value crVal with response status ra), ORs in
the interrupt-on-complete enable bit, and writes the result back
(response status rb).  Neither response status is inspected by the
source, so the call always succeeds. -/
def enableIOC (iocBit crVal : Nat) (ra rb : Bool) (s2mm : Bool) :
    Except DMAFault (List RegTxn) :=
  let _ := (ra, rb)
  .ok [ { addr := .crReg s2mm, isWrite := false, payload := crVal },
        { addr := .crReg s2mm, isWrite := true, payload := crVal ||| iocBit } ]

/-- Translation of DMATester::clearIOC (dmaTester.cc lines 199-220):
reads the status register (value srVal with response status ra), waits a
settle delay, writes the same value back (response status rb, clear on
write), and waits again.  Neither response status is inspected by the
source, so the call always succeeds. -/
def clearIOC (srVal : Nat) (ra rb : Bool) (s2mm : Bool) :
    Except DMAFault (List RegTxn) :=
  let _ := (ra, rb)
  .ok [ { addr := .srReg s2mm, isWrite := false, payload := srVal },
        { addr := .srReg s2mm, isWrite := true, payload := srVal } ]

/-- Translation of the writeback read of DMATester::verifyMemWriteback
(dmaTester.cc lines 149-158): reads testData.size() words from the
region just past the test vector and throws (TransportFault) when the
response is not ok.  The bytes read are the argument memData. -/
def readWriteback (respOk : Bool) (memData : List Nat) : Except DMAFault (List Nat) :=
  if respOk then .ok memData else .error .transportFault

/-- Messages printed by the tester, kept symbolic: the fixed mismatch
diagnostic of dmaTester.cc line 162 (which carries no index and no
values) and the consumption message of dmaTester.cc line 124. -/
inductive DmaMessage
  | writebackMismatch
  | testDataConsumed
deriving DecidableEq

/-- Translation of the comparison loop of DMATester::verifyMemWriteback
(dmaTester.cc lines 160-165): walks the indices of testData in order;
at the first index where the writeback differs it prints the fixed
mismatch diagnostic and returns, comparing no later index; when all
elements match the loop ends and the function returns with nothing
printed.  The result is the list of printed messages together with the
number of indices compared; a writeback shorter than the test vector
would make memData.at(ii) throw std::out_of_range. -/
def verifyCompare : List Nat → List Nat → Except DMAFault (List DmaMessage × Nat)
  | [], _ => .ok ([], 0)
  | _ :: _, [] => .error .outOfRange
  | t :: ts, m :: ms =>
    if t ≠ m then
      .ok ([.writebackMismatch], 1)
    else
      match verifyCompare ts ms with
      | .error e => .error e
      | .ok (msgs, n) => .ok (msgs, n + 1)

/-- The transfer loop shared by DMATester::testRun (dmaTester.cc lines
114-122) and DMATester::verifyMemWriteback (dmaTester.cc lines 138-146):
while the direction offset is below testData.size(), issue one request
— which advances the offset by dataSize / sizeof(float), one word per
request, or the whole vector in burst mode — then wait for the
completion interrupt and acknowledge it.  Returns the number of requests
issued and the sequence of offset values taken, first to last.  The fuel
argument bounds the recursion; any fuel above the trip count gives the
loop exactly. -/
def dmaLoop (burst : Bool) (tdLen : Nat) : Nat → Nat → Nat × List Nat
  | 0, offset => (0, [offset])
  | fuel + 1, offset =>
    if offset < tdLen then
      let step := (if burst then 4 * tdLen else 4) / 4
      let (n, trace) := dmaLoop burst tdLen fuel (offset + step)
      (n + 1, offset :: trace)
    else
      (0, [offset])

/-- Scheduler-visible events of the two tester flows, in program order:
timed waits, loading the data, enabling and clearing interrupt-on-
complete, waiting on the dataLoaded event, issuing a transfer request,
waiting for a completion interrupt, the writeback read, and the
element-wise comparison. -/
inductive DmaEvt
  | waitNs (n : Nat)
  | loadDataEvt
  | enableIOCEvt (s2mm : Bool)
  | waitDataLoaded
  | sendReqEvt (s2mm : Bool)
  | waitIRQEvt (s2mm : Bool)
  | clearIOCEvt (s2mm : Bool)
  | readBackEvt
  | compareEvt
deriving DecidableEq

/-- Event sequence of one iteration run of the transfer loop (request,
interrupt wait, acknowledge per iteration), mirroring dmaLoop. -/
def loopEvents (s2mm burst : Bool) (tdLen : Nat) : Nat → Nat → List DmaEvt
  | 0, _ => []
  | fuel + 1, offset =>
    if offset < tdLen then
      let step := (if burst then 4 * tdLen else 4) / 4
      [.sendReqEvt s2mm, .waitIRQEvt s2mm, .clearIOCEvt s2mm]
        ++ loopEvents s2mm burst tdLen fuel (offset + step)
    else
      []

/-- Event trace of DMATester::testRun (dmaTester.cc lines 108-125): wait
20 ns for reset, load the data, enable MM2S interrupt-on-complete, run
the MM2S transfer loop, report consumption. -/
def testRunTrace (burst : Bool) : List DmaEvt :=
  [.waitNs 20, .loadDataEvt, .enableIOCEvt false]
    ++ loopEvents false burst testData.length 20 0

/-- Event trace of DMATester::verifyMemWriteback (dmaTester.cc lines
132-166): wait 20 ns for reset, enable S2MM interrupt-on-complete, wait
for the dataLoaded event, run the S2MM transfer loop, read back the
writeback region, compare. -/
def verifyTrace (burst : Bool) : List DmaEvt :=
  [.waitNs 20, .enableIOCEvt true, .waitDataLoaded]
    ++ loopEvents true burst testData.length 20 0
    ++ [.readBackEvt, .compareEvt]

end DMATester

open Sig2Sock PE DMATester

/-- Claim C1.  The claim states that for every configured target packet
length L and byte-aligned bus width the packetizer emits packets of
exactly L bytes, ⌊sampled words × bytes-per-word / L⌋ of them.  The code
violates this for any bytes-per-word above one: flushBuffer compares the
buffered *byte* count against L but pops L *words*.  At bus width 32
(4 bytes per word), target length L = 1, with valid asserted for two
ticks (the first consumed by the setup delay) sampling the word 7, the
packetizer emits one packet of 4 bytes [7, 0, 0, 0]; the claim requires
⌊1·4/1⌋ = 4 packets of exactly 1 byte. -/
theorem c1_unit_mismatch_eval :
    (Sig2Sock.run 32 4 1 [(true, 7), (true, 7)]).map State.emitted = some [[7, 0, 0, 0]]
      ∧ ([7, 0, 0, 0] : List Nat).length ≠ 1 := by
  decide

/-- Claim C10.  The claim states that whenever the flush runs, the buffer
holds at least as many words as the flush loop pops, for every
byte-aligned width.  At bus width 32 (4 bytes per word) with target
length 2, a single sampled word passes the flush guard (1 word × 4 bytes
≥ 2) but the loop then pops 2 words from a 1-word queue: the second
front()/pop() acts on an empty std::queue (undefined behaviour), modelled
as the run evaluating to none. -/
theorem c10_flush_underflow_eval :
    Sig2Sock.run 32 4 2 [(true, 5), (true, 5)] = none := by
  decide

/-- Claim C7.  The claim states that at the end of every tick the ready
output is true exactly when the post-flush buffer occupancy is below the
configured maximum.  The code computes ready from currentWords, which
flushBuffer never decrements, so ready tracks the cumulative number of
words ever sampled.  At bus width 8, maxWords = 2, target length 1, after
three valid ticks (setup, sample 4, sample 5) every sampled word has been
flushed — the buffer is empty — yet ready is false, because
currentWords = 2 = maxWords; the claim requires ready = (0 < 2) = true. -/
theorem c7_ready_stuck_eval :
    (Sig2Sock.run 8 2 1 [(true, 3), (true, 4), (true, 5)]).map
        (fun s => (s.buffer, s.inputReady, s.emitted)) = some ([], false, [[4], [5]]) := by
  decide

/-- Conclusion of the C2 claim for one advance on a GENWAIT descriptor:
x_counter is decremented; if it is then below 0 it is reset to x_count,
y_counter is decremented and the weight index is shifted by y_modify;
the cursor advances to the next descriptor exactly when y_counter is
then below 0. -/
def genwaitStepSpec (s : PEState) (d : Descriptor_2D) : Prop :=
  ∃ s1, updateState s = .ok s1 ∧
    s1.weights = s.weights ∧ s1.programmed = true ∧
    (0 ≤ d.x_counter - 1 →
      s1.program = s.program.set s.prog_idx { d with x_counter := d.x_counter - 1 } ∧
      s1.weight_idx = s.weight_idx ∧
      s1.prog_idx = if d.y_counter < 0 then s.prog_idx + 1 else s.prog_idx) ∧
    (d.x_counter - 1 < 0 →
      s1.program =
        s.program.set s.prog_idx
          { d with x_counter := d.x_count, y_counter := d.y_counter - 1 } ∧
      s1.weight_idx = s.weight_idx + d.y_modify ∧
      s1.prog_idx = if d.y_counter - 1 < 0 then s.prog_idx + 1 else s.prog_idx)

/-- Claim C2.  For every programmed engine whose current descriptor has
state GEN_WAIT, one advance decrements x_counter; on underflow it resets
x_counter to x_count, decrements y_counter and shifts the weight index by
y_modify; the cursor advances exactly when y_counter is then negative.
In particular, on the one-descriptor program {GEN_WAIT, x_count = 2,
y_count = 1, y_modify = 1} with counters at their counts and weight index
0, ticks 1 and 2 take x_counter 2 → 1 → 0 and tick 3 resets x_counter to
2, takes y_counter to 0, and moves the weight index to 1. -/
theorem c2_genwait_step (s : PEState) (d : Descriptor_2D)
    (hp : s.programmed = true)
    (hd : s.program.get? s.prog_idx = some d)
    (hs : d.state = DescriptorState.GENWAIT) :
    genwaitStepSpec s d
      ∧ advanceN 1 testPE =
          .ok { testPE with program := [{ testDescriptor with x_counter := 1 }] }
      ∧ advanceN 2 testPE =
          .ok { testPE with program := [{ testDescriptor with x_counter := 0 }] }
      ∧ advanceN 3 testPE =
          .ok { testPE with
                  program := [{ testDescriptor with x_counter := 2, y_counter := 0 }],
                  weight_idx := 1 } := by
  refine ⟨?_, rfl, rfl, rfl⟩
  have hstep : updateState s =
      .ok { s with
              program := s.program.set s.prog_idx
                (if d.x_counter - 1 < 0 then
                  { d with x_counter := d.x_count, y_counter := d.y_counter - 1 }
                else
                  { d with x_counter := d.x_counter - 1 }),
              weight_idx :=
                if d.x_counter - 1 < 0 then s.weight_idx + d.y_modify else s.weight_idx,
              prog_idx :=
                if (if d.x_counter - 1 < 0 then d.y_counter - 1 else d.y_counter) < 0 then
                  s.prog_idx + 1
                else s.prog_idx } := by
    simp only [updateState, hp, hd, hs, if_true]
    by_cases hx : d.x_counter - 1 < 0 <;> simp [hx]
  refine ⟨_, hstep, rfl, hp, ?_, ?_⟩
  · intro h
    have hx : ¬ d.x_counter - 1 < 0 := not_lt.mpr h
    refine ⟨?_, ?_, ?_⟩ <;> simp [hx]
  · intro hx
    refine ⟨?_, ?_, ?_⟩ <;> simp [hx]

/-- Witness for C2: the theorem applied to the freshly loaded test
program, whose current descriptor is the GENWAIT test descriptor. -/
theorem c2_genwait_step_witness :
    testPE.programmed = true
      ∧ testPE.program.get? testPE.prog_idx = some testDescriptor
      ∧ testDescriptor.state = DescriptorState.GENWAIT
      ∧ genwaitStepSpec testPE testDescriptor :=
  ⟨rfl, rfl, rfl, (c2_genwait_step testPE testDescriptor rfl rfl rfl).1⟩

/-- The PE state reached from the loaded test program after six advances:
the cursor has moved past the single descriptor. -/
def pastEndPE : PEState :=
  { program :=
      [{ state := .GENWAIT, x_count := 2, x_counter := 2, y_count := 1, y_counter := -1,
         y_modify := 1 }],
    prog_idx := 1, weights := [], weight_idx := 2, programmed := true }

/-- Claim C9.  Once the cursor is past the last descriptor, a further
advance has explicitly defined behaviour: program.at(prog_idx) is a
bounds-checked access, so no out-of-bounds read of the program occurs
and the call deterministically raises std::out_of_range (a defined fatal
fault, modelled as the indexOutOfRange error) rather than undefined
behaviour.  Moreover, on the one-descriptor test program, continued
ticks indeed drive the cursor past the program: six advances reach
cursor 1 on the length-1 program, and the seventh advance is the defined
out-of-range fault. -/
theorem c9_past_end_defined (s : PEState)
    (hp : s.programmed = true) (h : s.program.length ≤ s.prog_idx) :
    updateState s = .error .indexOutOfRange
      ∧ advanceN 6 testPE = .ok pastEndPE
      ∧ advanceN 7 testPE = .error .indexOutOfRange := by
  refine ⟨?_, rfl, rfl⟩
  simp only [updateState, hp, if_true, List.get?_eq_none.mpr h]

/-- Witness for C9: the theorem applied to the past-end state reached
after six advances of the test program. -/
theorem c9_past_end_defined_witness :
    pastEndPE.programmed = true
      ∧ pastEndPE.program.length ≤ pastEndPE.prog_idx
      ∧ updateState pastEndPE = .error .indexOutOfRange :=
  ⟨rfl, by decide, (c9_past_end_defined pastEndPE rfl (by decide)).1⟩

/-- Counterexample for claim C3.  The claim states that every register
transaction of the driver raises a fatal TransportFault on a non-ok
status — including the three writes of sendDMAReq and the CR/SR accesses
of enableIOC and clearIOC.  With every transport response non-ok, all
three calls nevertheless complete without a fault (the source never
inspects their response statuses), so the claim is false at this input. -/
theorem c3_counterexample :
    (sendDMAReq false false 0 10 0 0 false false false).isOk = true
      ∧ (enableIOC 1 0 false false false).isOk = true
      ∧ (clearIOC 0 false false false).isOk = true := by
  decide

/-- Claim C3 as amended.  Among the tester transactions, only the
loadData write and the writeback read check the response status and
raise a fatal TransportFault on non-ok; the three register writes of
sendDMAReq and the control- and status-register accesses of enableIOC
and clearIOC ignore the transaction status entirely and never fault. -/
theorem c3_status_checks :
    (∀ (burst s2mm : Bool) (mb tdl o1 o2 : Nat) (r1 r2 r3 : Bool),
        (sendDMAReq burst s2mm mb tdl o1 o2 r1 r2 r3).isOk = true)
      ∧ (∀ (bit cr : Nat) (ra rb s2mm : Bool), (enableIOC bit cr ra rb s2mm).isOk = true)
      ∧ (∀ (sr : Nat) (ra rb s2mm : Bool), (clearIOC sr ra rb s2mm).isOk = true)
      ∧ (∀ r : Bool, (loadData r).isOk = r)
      ∧ (∀ (r : Bool) (md : List Nat), (readWriteback r md).isOk = r) := by
  refine ⟨?_, ?_, ?_, ?_, ?_⟩
  · intro burst s2mm mb tdl o1 o2 r1 r2 r3
    cases s2mm <;> rfl
  · intro bit cr ra rb s2mm
    rfl
  · intro sr ra rb s2mm
    rfl
  · intro r
    cases r <;> rfl
  · intro r md
    cases r <;> rfl

/-- Claim C4.  With the 10-element ascending test vector, the non-burst
MM2S loop issues exactly 10 transfer requests, each advancing mm2sOffset
by one word through the trace 0, 1, ..., 10; the burst-mode loop issues
exactly 1 request, taking the offset from 0 to 10 in one step. -/
theorem c4_request_counts :
    dmaLoop false testData.length 20 0 = (10, [0, 1, 2, 3, 4, 5, 6, 7, 8, 9, 10])
      ∧ dmaLoop true testData.length 20 0 = (1, [0, 10]) := by
  decide

/-- Claim C8.  In both burst and non-burst mode the transfer-offset
sequence of a run (shared by the MM2S and the S2MM loop, which use the
same guard and the same advance) starts at 0, is monotonically
non-decreasing, and stays within 0 ≤ offset ≤ |testData|. -/
theorem c8_offset_invariant :
    ∀ burst : Bool,
      ((dmaLoop burst testData.length 20 0).2.head? = some 0)
        ∧ List.Pairwise (· ≤ ·) (dmaLoop burst testData.length 20 0).2
        ∧ ∀ x ∈ (dmaLoop burst testData.length 20 0).2, x ≤ testData.length := by
  decide

/-- Helper: when the expected vector and the writeback first differ at
index i (all earlier indices equal, index i unequal, and the writeback at
least as long as the expected vector), the comparison loop prints the
fixed mismatch diagnostic and returns after comparing exactly the
indices 0..i. -/
theorem verifyCompare_first_mismatch (i : Nat) :
    ∀ (td md : List Nat), td.length ≤ md.length → i < td.length →
      (∀ j, j < i → td.get? j = md.get? j) → td.get? i ≠ md.get? i →
      verifyCompare td md = .ok ([.writebackMismatch], i + 1) := by
  induction i with
  | zero =>
    intro td md hlen hi hpre hne
    match td, md with
    | t :: ts, m :: ms =>
      have htm : t ≠ m := by
        intro h
        exact hne (by simp [h])
      simp [verifyCompare, htm]
  | succ i ih =>
    intro td md hlen hi hpre hne
    match td, md with
    | t :: ts, [] => simp at hlen
    | t :: ts, m :: ms =>
      have htm : t = m := by
        have := hpre 0 (Nat.succ_pos i)
        simpa using this
      have hrec : verifyCompare ts ms = .ok ([.writebackMismatch], i + 1) := by
        refine ih ts ms (by simpa using hlen) (by simpa using hi) ?_ ?_
        · intro j hj
          have := hpre (j + 1) (by omega)
          simpa using this
        · intro h
          exact hne (by simpa using h)
      simp [verifyCompare, htm, hrec]

/-- Helper: when every index of the expected vector matches the
writeback (which is at least as long), the comparison loop compares all
indices and prints nothing. -/
theorem verifyCompare_all_match :
    ∀ (td md : List Nat), td.length ≤ md.length →
      (∀ j, j < td.length → td.get? j = md.get? j) →
      verifyCompare td md = .ok ([], td.length) := by
  intro td
  induction td with
  | nil => intro md _ _; rfl
  | cons t ts ih =>
    intro md hlen hall
    match md with
    | [] => simp at hlen
    | m :: ms =>
      have htm : t = m := by
        have := hall 0 (by simp)
        simpa using this
      have hrec : verifyCompare ts ms = .ok ([], ts.length) := by
        refine ih ms (by simpa using hlen) ?_
        intro j hj
        have := hall (j + 1) (by simpa using hj)
        simpa using this
      simp [verifyCompare, htm, hrec]

/-- The writeback vector that equals testData except at index 3. -/
def mismatchAt3 : List Nat := [0, 1, 2, 99, 4, 5, 6, 7, 8, 9]

/-- The writeback vector that equals testData except at index 0. -/
def mismatchAt0 : List Nat := [99, 1, 2, 3, 4, 5, 6, 7, 8, 9]

/-- Counterexample for claim C5.  The claim states that the mismatch
diagnostic names the failing index and that a full match is reported
with a success confirmation.  The source prints the same fixed
diagnostic for a first mismatch at index 3 and for one at index 0 — so
the diagnostic cannot name the failing index — and on a writeback equal
to testData the comparison completes with nothing printed at all, so no
success confirmation is reported. -/
theorem c5_counterexample :
    verifyCompare testData mismatchAt3 = .ok ([.writebackMismatch], 4)
      ∧ verifyCompare testData mismatchAt0 = .ok ([.writebackMismatch], 1)
      ∧ verifyCompare testData testData = .ok ([], 10) := by
  refine ⟨rfl, rfl, rfl⟩

/-- Claim C5 as amended.  When writeback verification finds the first
index i with writeback[i] != testData[i], it prints the fixed mismatch
diagnostic (which carries no index) and stops after comparing exactly
the indices up to and including i, without comparing any later index;
when every element matches, it compares all elements and completes
without printing anything. -/
theorem c5_first_mismatch_stops (td md : List Nat) (i : Nat)
    (hlen : td.length ≤ md.length) :
    (i < td.length → (∀ j, j < i → td.get? j = md.get? j) → td.get? i ≠ md.get? i →
        verifyCompare td md = .ok ([.writebackMismatch], i + 1))
      ∧ ((∀ j, j < td.length → td.get? j = md.get? j) →
        verifyCompare td md = .ok ([], td.length)) :=
  ⟨fun hi hpre hne => verifyCompare_first_mismatch i td md hlen hi hpre hne,
   fun hall => verifyCompare_all_match td md hlen hall⟩

/-- Witness for C5: the amended theorem applied to testData against the
writeback differing first at index 3. -/
theorem c5_first_mismatch_stops_witness :
    testData.length ≤ mismatchAt3.length
      ∧ ((3 < testData.length →
            (∀ j, j < 3 → testData.get? j = mismatchAt3.get? j) →
            testData.get? 3 ≠ mismatchAt3.get? 3 →
            verifyCompare testData mismatchAt3 = .ok ([.writebackMismatch], 4))
          ∧ ((∀ j, j < testData.length → testData.get? j = mismatchAt3.get? j) →
            verifyCompare testData mismatchAt3 = .ok ([], testData.length))) :=
  ⟨by decide, c5_first_mismatch_stops testData mismatchAt3 3 (by decide)⟩

/-- Counterexample for claim C6.  The claim states that the S2MM flow
waits for the dataLoaded event before enabling interrupt-on-complete on
the S2MM engine.  In the event trace of verifyMemWriteback the S2MM
interrupt-enable occurs in the prefix that precedes the wait on
dataLoaded (it is the second event, the wait the third), so the enable
happens before — not after — the data-loaded synchronisation. -/
theorem c6_counterexample :
    ((verifyTrace false).takeWhile
        (fun e => decide (e ≠ DmaEvt.waitDataLoaded))).contains (.enableIOCEvt true) = true
      ∧ (verifyTrace false).take 3 = [.waitNs 20, .enableIOCEvt true, .waitDataLoaded] := by
  decide

/-- Claim C6 as amended.  The S2MM flow enables interrupt-on-complete
first and only then waits for the dataLoaded event; the event it delays
past loadData completion is the transfer phase: in both modes no S2MM
transfer request occurs before the wait on dataLoaded, which the trace
does contain. -/
theorem c6_requests_after_load :
    ∀ burst : Bool,
      ((verifyTrace burst).takeWhile
          (fun e => decide (e ≠ DmaEvt.waitDataLoaded))).contains (.sendReqEvt true) = false
        ∧ (verifyTrace burst).contains .waitDataLoaded = true := by
  decide
